import Mathlib

/-!
Verification of the MAVLink ground-station backend (dron_os_backend).

The definitions below are shallow embeddings of the TypeScript sources:

- frame codec and command link: `src/services/mavlinkService.ts` (UDP variant with
  peer learning and packet building);
- fan-out hub: the authenticated `DroneWebSocketService` variant
  (`broadcastTelemetryFiltered`);
- session/event engine: the throttled `SessionService.updateSession` variant in
  `src/services/droneManager.ts` (the copy that keeps `lastEventTimestamps`);
- drone manager registration: the in-memory `DroneManager.registerDrone` plus the
  database-backed `/user/drone/register` route handler in `src/routes/user.ts`.

JavaScript `Buffer`s are modelled as `List Nat` of byte values, JS numbers carried in
telemetry as `Option ℚ` (`undefined` is `none`), and truthiness tests are made
explicit (`0`, `''`, `undefined` are falsy).
-/

namespace DronOS

/-! ## Frame codec (mavlinkService.ts) -/

/-- One step of the CRC-16/MCRF4XX accumulator, from the body of the byte loop in
`MAVLinkService.calculateCRC`:
`tmp = b ^ (crc & 0xFF); tmp ^= (tmp << 4) & 0xFF;
 crc = ((crc >> 8) ^ (tmp << 8) ^ (tmp << 3) ^ (tmp >> 4)) & 0xFFFF`. -/
def crcStep (crc b : Nat) : Nat :=
  let t1 := b ^^^ (crc % 256)
  let tmp := t1 ^^^ ((t1 <<< 4) % 256)
  ((crc >>> 8) ^^^ (tmp <<< 8) ^^^ (tmp <<< 3) ^^^ (tmp >>> 4)) % 65536

/-- The `crcExtra` table of `MAVLinkService.calculateCRC`: the source only ships the
entries for SET_MODE (11 ↦ 89) and COMMAND_LONG (76 ↦ 152). -/
def crcExtra (msgId : Nat) : Option Nat :=
  if msgId = 11 then some 89 else if msgId = 76 then some 152 else none

/-- `MAVLinkService.calculateCRC`: fold the accumulator over every byte after the
magic byte, then over the CRC_EXTRA byte when the table has one. -/
def calculateCRC (buffer : List Nat) (msgId : Nat) : Nat :=
  let crc := (buffer.drop 1).foldl crcStep 0xFFFF
  match crcExtra msgId with
  | some e => crcStep crc e
  | none => crc

/-- `MAVLinkService.buildMavlinkV2Packet`: 10-byte v2 header
(`0xFD`, payload length, incompat 0, compat 0, seq 0, sysid 255, compid 190,
24-bit little-endian message id), then the payload, then the 16-bit little-endian
CRC over header-after-magic and payload plus CRC_EXTRA. -/
def buildMavlinkV2Packet (msgId : Nat) (payload : List Nat) : List Nat :=
  let packet : List Nat :=
    0xFD :: payload.length :: 0 :: 0 :: 0 :: 255 :: 190 ::
      msgId % 256 :: msgId / 256 % 256 :: msgId / 65536 % 256 :: payload
  let crc := calculateCRC packet msgId
  packet ++ [crc % 256, crc / 256 % 256]

/-- `MAVLinkService.buildSetModePacket`: 6-byte SET_MODE payload
(`custom_mode` u32 LE, `target_system` = `systemId || 1`, `base_mode` = 1) framed as
message 11. -/
def buildSetModePacket (systemId customMode : Nat) : List Nat :=
  buildMavlinkV2Packet 11
    [customMode % 256, customMode / 256 % 256, customMode / 65536 % 256,
     customMode / 16777216 % 256, if systemId = 0 then 1 else systemId, 1]

/-- `MAVLinkService.handleRawMessage`: the inbound decoder. A buffer starting with
`0xFD` of length ≥ 12 is decoded as v2 (`len` at byte 1, msgid 24-bit LE at bytes
7-9, payload at bytes 10..10+len); a buffer starting with `0xFE` of length ≥ 8 as v1
(msgid at byte 5, payload at bytes 6..6+len); anything else is dropped. The decoded
`(msgId, payload)` is handed to `parseMavlinkV2Message`; the trailing CRC bytes are
never read. -/
def handleRawMessage (buffer : List Nat) : Option (Nat × List Nat) :=
  if buffer.getD 0 0 = 0xFD ∧ 12 ≤ buffer.length then
    let payloadLen := buffer.getD 1 0
    let msgId := buffer.getD 7 0 + 256 * buffer.getD 8 0 + 65536 * buffer.getD 9 0
    some (msgId, (buffer.drop 10).take payloadLen)
  else if buffer.getD 0 0 = 0xFE ∧ 8 ≤ buffer.length then
    let payloadLen := buffer.getD 1 0
    some (buffer.getD 5 0, (buffer.drop 6).take payloadLen)
  else
    none

/-- Taking exactly the length of the left list from an append returns the left list. -/
theorem take_length_append {α : Type} (l₁ l₂ : List α) :
    (l₁ ++ l₂).take l₁.length = l₁ := by
  induction l₁ with
  | nil => simp
  | cons a l ih => simp [ih]

/-- Decoding a buffer of v2 shape: explicit header bytes, any tail of length ≥ 2. -/
theorem handleRawMessage_v2 (b1 b2 b3 b4 b5 b6 b7 b8 b9 : Nat) (rest : List Nat)
    (h : 2 ≤ rest.length) :
    handleRawMessage
        (0xFD :: b1 :: b2 :: b3 :: b4 :: b5 :: b6 :: b7 :: b8 :: b9 :: rest) =
      some (b7 + 256 * b8 + 65536 * b9, rest.take b1) := by
  unfold handleRawMessage
  rw [if_pos ⟨rfl, by simp only [List.length_cons]; omega⟩]
  rfl

/-- C5. For every `(msg_id, payload)` the encoder can emit (in particular SET_MODE's
6-byte and COMMAND_LONG's 33-byte payloads), decoding the encoder's v2 output frame
recovers exactly the same message id and the same payload bytes: `handleRawMessage`'s
header layout (msgid as 24-bit little-endian at offset 7, payload at offset 10 with
length from byte 1) inverts `buildMavlinkV2Packet`. -/
theorem decode_encode_roundtrip (msgId : Nat) (payload : List Nat)
    (hm : msgId < 16777216) (hl : payload.length ≤ 255) :
    handleRawMessage (buildMavlinkV2Packet msgId payload) = some (msgId, payload) := by
  have hpkt : buildMavlinkV2Packet msgId payload =
      0xFD :: payload.length :: 0 :: 0 :: 0 :: 255 :: 190 ::
        msgId % 256 :: msgId / 256 % 256 :: msgId / 65536 % 256 ::
        (payload ++
          [calculateCRC (0xFD :: payload.length :: 0 :: 0 :: 0 :: 255 :: 190 ::
              msgId % 256 :: msgId / 256 % 256 :: msgId / 65536 % 256 :: payload)
              msgId % 256,
           calculateCRC (0xFD :: payload.length :: 0 :: 0 :: 0 :: 255 :: 190 ::
              msgId % 256 :: msgId / 256 % 256 :: msgId / 65536 % 256 :: payload)
              msgId / 256 % 256]) := rfl
  rw [hpkt, handleRawMessage_v2 _ _ _ _ _ _ _ _ _ _
    (by simp only [List.length_append, List.length_cons, List.length_nil]; omega)]
  rw [take_length_append]
  have hdec : msgId % 256 + 256 * (msgId / 256 % 256) + 65536 * (msgId / 65536 % 256)
      = msgId := by omega
  rw [hdec]

/-- Closed witness for the round-trip theorem at SET_MODE's concrete shape. -/
theorem decode_encode_roundtrip_witness :
    (11 < 16777216 ∧ ([4, 0, 0, 0, 1, 1] : List Nat).length ≤ 255) ∧
    handleRawMessage (buildMavlinkV2Packet 11 [4, 0, 0, 0, 1, 1]) =
      some (11, [4, 0, 0, 0, 1, 1]) :=
  ⟨⟨by decide, by decide⟩, decode_encode_roundtrip 11 [4, 0, 0, 0, 1, 1]
    (by decide) (by decide)⟩

/-- A well-formed SET_MODE frame built by the encoder: custom_mode 4 (GUIDED),
observed target system 1. -/
def setModeFrame : List Nat := buildSetModePacket 1 4

/-- `setModeFrame` with one payload byte (offset 10, the low byte of `custom_mode`)
flipped from 4 to 5, with the on-wire CRC bytes left unchanged. -/
def corruptedSetModeFrame : List Nat := setModeFrame.set 10 5

/-- C1 counterexample. Flipping a single byte of a well-formed frame makes the
computed CRC (with CRC_EXTRA 89 for SET_MODE) disagree with the on-wire CRC, yet
`handleRawMessage` still decodes the frame and delivers the (corrupted) payload:
decoding does not fail, so the decoder does not reject CRC mismatches. -/
theorem decoder_accepts_corrupted_frame :
    calculateCRC (corruptedSetModeFrame.take 16) 11 ≠
      corruptedSetModeFrame.getD 16 0 + 256 * corruptedSetModeFrame.getD 17 0 ∧
    handleRawMessage corruptedSetModeFrame = some (11, [5, 0, 0, 0, 1, 1]) := by
  decide

/-- C1 (amended). The decoder performs no CRC verification: every buffer whose first
byte is `0xFD` and whose length is at least 12 is decoded and its payload delivered,
computed purely from the header fields — the trailing CRC bytes are never consulted,
so a frame whose computed CRC (including CRC_EXTRA) disagrees with the on-wire value
is accepted all the same. -/
theorem decoder_delivers_regardless_of_crc (buffer : List Nat)
    (h0 : buffer.getD 0 0 = 0xFD) (hlen : 12 ≤ buffer.length) :
    handleRawMessage buffer =
      some (buffer.getD 7 0 + 256 * buffer.getD 8 0 + 65536 * buffer.getD 9 0,
            (buffer.drop 10).take (buffer.getD 1 0)) := by
  unfold handleRawMessage
  rw [if_pos ⟨h0, hlen⟩]

/-- Closed witness: the amended C1 theorem applied to the corrupted frame. -/
theorem decoder_delivers_regardless_of_crc_witness :
    (corruptedSetModeFrame.getD 0 0 = 0xFD ∧ 12 ≤ corruptedSetModeFrame.length) ∧
    handleRawMessage corruptedSetModeFrame =
      some (corruptedSetModeFrame.getD 7 0 + 256 * corruptedSetModeFrame.getD 8 0 +
              65536 * corruptedSetModeFrame.getD 9 0,
            (corruptedSetModeFrame.drop 10).take (corruptedSetModeFrame.getD 1 0)) :=
  ⟨⟨by decide, by decide⟩,
    decoder_delivers_regardless_of_crc corruptedSetModeFrame (by decide) (by decide)⟩

/-! ## Vehicle link: peer learning and command sending (mavlinkService.ts) -/

/-- The `MAVLinkService` fields that the connect/learn/send paths read and write:
`connected`, the `connection` socket handle (modelled as a presence flag),
`remoteAddress`/`remotePort` (learned from inbound datagrams), and the
`systemId`/`componentId` observed from heartbeats. -/
structure MavState where
  connected : Bool
  hasConnection : Bool
  remoteAddress : String
  remotePort : Nat
  systemId : Nat
  componentId : Nat
deriving DecidableEq

/-- Constructor defaults: `remoteAddress = ''`, `remotePort = 14551`. -/
def initialState : MavState :=
  { connected := false, hasConnection := false, remoteAddress := "",
    remotePort := 14551, systemId := 0, componentId := 0 }

/-- The state right after a successful UDP `connect`: the socket is bound and the
`listening` handler has set `connected = true`; no inbound frame has arrived yet, so
`remoteAddress` is still the empty string. -/
def postConnectState : MavState :=
  { initialState with connected := true, hasConnection := true }

/-- The peer-learning head of the UDP `message` handler:
`if (!this.remoteAddress || this.remoteAddress !== rinfo.address)` store the
datagram's source address and source port. -/
def learnPeer (s : MavState) (addr : String) (port : Nat) : MavState :=
  if s.remoteAddress = "" ∨ s.remoteAddress ≠ addr then
    { s with remoteAddress := addr, remotePort := port }
  else s

/-- Outcome of `sendPacket`/`arm`: the not-connected early return, the
no-remote-address early return (the `PeerUnknown` case: logged and `false` returned
without any `connection.send`), or a datagram handed to `connection.send` with its
destination. -/
inductive SendResult where
  | notConnected
  | peerUnknown
  | sent (host : String) (port : Nat)
deriving DecidableEq

/-- `MAVLinkService.sendPacket`: fails when not connected; fails without sending when
no remote address has been learned; otherwise sends to `targetHost = remoteAddress`
and `targetPort = 5792`, a hard-coded constant (the learned `remotePort` is not
used). -/
def sendPacket (s : MavState) : SendResult :=
  if !s.connected || !s.hasConnection then SendResult.notConnected
  else if s.remoteAddress = "" then SendResult.peerUnknown
  else SendResult.sent s.remoteAddress 5792

/-- `MAVLinkService.arm`: guard on `connected`/`connection`, build the
COMMAND_LONG(400, param1 = 1) packet, and hand it to `sendPacket`. -/
def arm (s : MavState) : SendResult :=
  if !s.connected || !s.hasConnection then SendResult.notConnected
  else sendPacket s

/-- C3 counterexample. After a HEARTBEAT from `192.0.2.7:52345` is observed (peer
learned), `arm` sends its datagram to `192.0.2.7:5792` — not to the observed source
port 52345 as the claim states. -/
theorem arm_ignores_learned_port :
    arm (learnPeer postConnectState "192.0.2.7" 52345) =
      SendResult.sent "192.0.2.7" 5792 ∧
    arm (learnPeer postConnectState "192.0.2.7" 52345) ≠
      SendResult.sent "192.0.2.7" 52345 := by
  constructor <;> decide

/-- C3 (amended). Every outbound command datagram is sent to the pair
`(learned host, 5792)`: the destination host is the source host of the most recent
inbound frame, but the destination port is the hard-coded constant 5792 — the learned
source port is stored in `remotePort` yet never used by `sendPacket`. -/
theorem arm_sends_to_learned_host_fixed_port (s : MavState) (addr : String) (port : Nat)
    (hc : s.connected = true) (hh : s.hasConnection = true) (ha : addr ≠ "") :
    arm (learnPeer s addr port) = SendResult.sent addr 5792 := by
  unfold arm sendPacket learnPeer
  by_cases hcond : s.remoteAddress = "" ∨ s.remoteAddress ≠ addr
  · rw [if_pos hcond]
    simp [hc, hh, ha]
  · rw [if_neg hcond]
    push_neg at hcond
    simp [hc, hh, ha, hcond.2, hcond.1]

/-- Closed witness: the amended C3 theorem at the scenario's concrete peer. -/
theorem arm_sends_to_learned_host_fixed_port_witness :
    (postConnectState.connected = true ∧ postConnectState.hasConnection = true ∧
      ("192.0.2.7" : String) ≠ "") ∧
    arm (learnPeer postConnectState "192.0.2.7" 52345) =
      SendResult.sent "192.0.2.7" 5792 :=
  ⟨⟨by decide, by decide, by decide⟩,
    arm_sends_to_learned_host_fixed_port postConnectState "192.0.2.7" 52345
      (by decide) (by decide) (by decide)⟩

/-- C4. Immediately after `connect` succeeds but before any inbound frame has arrived
(`remoteAddress` still empty), `arm` takes the peer-unknown early return of
`sendPacket`: no `connection.send` happens, so no datagram is sent. -/
theorem arm_before_first_frame (s : MavState)
    (hc : s.connected = true) (hh : s.hasConnection = true)
    (hr : s.remoteAddress = "") :
    arm s = SendResult.peerUnknown ∧ ∀ host port, arm s ≠ SendResult.sent host port := by
  have h : arm s = SendResult.peerUnknown := by
    unfold arm sendPacket
    simp [hc, hh, hr]
  exact ⟨h, fun host port => by rw [h]; exact fun hcontra => SendResult.noConfusion hcontra⟩

/-- Closed witness: C4 at the concrete post-connect state. -/
theorem arm_before_first_frame_witness :
    (postConnectState.connected = true ∧ postConnectState.hasConnection = true ∧
      postConnectState.remoteAddress = "") ∧
    arm postConnectState = SendResult.peerUnknown :=
  ⟨⟨by decide, by decide, by decide⟩,
    (arm_before_first_frame postConnectState (by decide) (by decide) (by decide)).1⟩

/-! ## Connect path and the request-surface connection-string validation -/

/-- Outcome of `MAVLinkService.connect`: either a UDP socket is created and bound to
`(host, port)` and `connect` resolves `true`, or the thrown error
(`Unsupported protocol. Use tcp or udp/udpin`) is caught and `connect` resolves
`false` with no socket ever created. -/
inductive ConnectResult where
  | bound (host : String) (port : Option Nat)
  | failed
deriving DecidableEq

/-- JavaScript `String.prototype.split` for a single-character separator, over the
character list: `''.split(c) = ['']`, and each separator occurrence starts a new
field. -/
def splitOnChar (sep : Char) : List Char → List (List Char)
  | [] => [[]]
  | c :: cs =>
    match splitOnChar sep cs with
    | [] => [[c]]
    | h :: t => if c = sep then [] :: h :: t else (c :: h) :: t

/-- `connectionString.split(':')` as a list of strings. -/
def jsSplitColon (s : String) : List String :=
  (splitOnChar ':' s.data).map String.mk

/-- `MAVLinkService.connect`: split the connection string on `:`; only the
`udp`/`udpin` protocols create and bind a socket (host defaulting to `0.0.0.0` when
the part is missing or empty, port from `parseInt(parts[2])`); every other protocol —
including `tcp` — throws, is caught, and yields `false` without binding. -/
def connect (connectionString : String) : ConnectResult :=
  let parts := jsSplitColon connectionString
  let protocol := parts.getD 0 ""
  let host := if parts.getD 1 "" = "" then "0.0.0.0" else parts.getD 1 ""
  let port := (parts.getD 2 "").toNat?
  if protocol = "udp" ∨ protocol = "udpin" then ConnectResult.bound host port
  else ConnectResult.failed

/-- The `/drone/connect` route's validation pattern
`^(tcp|udp|udpin):[^:]+:\d+$` (drone.ts). A string matches exactly when it splits on
`:` into a protocol in `{tcp, udp, udpin}`, a non-empty host without colons, and a
non-empty digit string. -/
def connectionStringPattern (s : String) : Bool :=
  match jsSplitColon s with
  | [proto, host, port] =>
      (proto == "tcp" || proto == "udp" || proto == "udpin") &&
        host != "" && port != "" && port.data.all Char.isDigit
  | _ => false

/-- C9. Every connection string whose protocol prefix is `tcp` makes `connect` fail
(returning `false` after the internal `Unsupported protocol` error) without ever
binding a socket — even though the request-surface validation pattern accepts `tcp`
as a valid protocol (witnessed at `tcp:127.0.0.1:5760`). -/
theorem tcp_connect_always_fails (s : String)
    (h : (jsSplitColon s).getD 0 "" = "tcp") :
    connect s = ConnectResult.failed ∧
    connectionStringPattern "tcp:127.0.0.1:5760" = true := by
  constructor
  · unfold connect
    rw [if_neg]
    rw [h]
    rintro (hcontra | hcontra) <;> simp at hcontra
  · decide

/-- Closed witness: C9 at the concrete string `tcp:127.0.0.1:5760`. -/
theorem tcp_connect_always_fails_witness :
    ((jsSplitColon "tcp:127.0.0.1:5760").getD 0 "" = "tcp") ∧
    connect "tcp:127.0.0.1:5760" = ConnectResult.failed :=
  ⟨by decide, (tcp_connect_always_fails "tcp:127.0.0.1:5760" (by decide)).1⟩

/-! ## Subscriber hub fan-out (authenticated DroneWebSocketService variant) -/

/-- A subscriber channel's `ClientInfo` plus the socket's `readyState === OPEN`
test that guards every send. `userId` is `null` until `auth` succeeds. -/
structure ClientInfo where
  userId : Option Nat
  isAdmin : Bool
  authenticated : Bool
  isOpen : Bool
deriving DecidableEq

/-- The per-channel filter of `broadcastTelemetryFiltered`: a channel receives the
telemetry frame exactly when it is authenticated, its socket is open, and it is
either an admin or the owner of the drone (`clientInfo.userId === targetUserId`). -/
def shouldReceiveTelemetry (c : ClientInfo) (targetUserId : Nat) : Bool :=
  c.authenticated && c.isOpen && (c.isAdmin || c.userId == some targetUserId)

/-- `broadcastTelemetryFiltered`: the sub-multiset of channels the telemetry frame is
written to. -/
def broadcastTelemetryFiltered (clients : List ClientInfo) (targetUserId : Nat) :
    List ClientInfo :=
  clients.filter (fun c => shouldReceiveTelemetry c targetUserId)

/-- C2. For a `TelemetryUpdate` whose drone is owned by user `u`, the hub delivers
the frame to an (open) subscriber channel `c` iff `c` is authenticated and `c` is an
admin or `c`'s principal equals `u`; in particular no unauthenticated channel and no
authenticated non-admin channel of a different principal receives it. -/
theorem telemetry_fanout_filter (clients : List ClientInfo) (c : ClientInfo) (u : Nat)
    (hmem : c ∈ clients) (hopen : c.isOpen = true) :
    c ∈ broadcastTelemetryFiltered clients u ↔
      c.authenticated = true ∧ (c.isAdmin = true ∨ c.userId = some u) := by
  simp [broadcastTelemetryFiltered, shouldReceiveTelemetry, List.mem_filter, hmem,
    hopen]

/-- Closed witness: channel X owned by user 7, channel Y owned by user 8 (non-admin),
channel Z admin; telemetry for user 7's drone reaches X and Z but not Y. -/
theorem telemetry_fanout_filter_witness :
    (⟨some 7, false, true, true⟩ ∈
        broadcastTelemetryFiltered
          [⟨some 7, false, true, true⟩, ⟨some 8, false, true, true⟩,
           ⟨some 9, true, true, true⟩] 7 ↔
      (true = true ∧ (false = true ∨ (some 7 : Option Nat) = some 7))) ∧
    broadcastTelemetryFiltered
        [⟨some 7, false, true, true⟩, ⟨some 8, false, true, true⟩,
         ⟨some 9, true, true, true⟩] 7 =
      [⟨some 7, false, true, true⟩, ⟨some 9, true, true, true⟩] :=
  ⟨telemetry_fanout_filter _ ⟨some 7, false, true, true⟩ 7 (by decide) (by decide),
    by decide⟩

/-! ## Session + event engine (throttled SessionService.updateSession) -/

/-- The telemetry argument of `SessionService.updateSession`. Optional JS numbers are
`Option ℚ` (`undefined` is `none`); the JS truthiness of `0`, `''` and `undefined`
is made explicit below. -/
structure Telemetry where
  latitude : Option ℚ
  longitude : Option ℚ
  altitude : Option ℚ
  battery : Option ℚ
  speed : Option ℚ
  mode : Option String
  armed : Option Bool
deriving DecidableEq

/-- JS truthiness of an optional number: `undefined` and `0` are falsy. -/
def truthyNum : Option ℚ → Bool
  | none => false
  | some x => x != 0

/-- JS truthiness of an optional string: `undefined` and `''` are falsy. -/
def truthyStr : Option String → Bool
  | none => false
  | some s => s != ""

/-- JS truthiness of an optional boolean: `undefined` is falsy. -/
def truthyBool : Option Bool → Bool
  | none => false
  | some b => b

/-- The four event kinds `updateSession` can derive from one telemetry update. -/
inductive EventKind where
  | takeoff
  | landing
  | batteryLow
  | modeChange
deriving DecidableEq

/-- `telemetry.armed && telemetry.altitude && telemetry.altitude > 5`. -/
def takeoffTrigger (t : Telemetry) : Bool :=
  truthyBool t.armed && truthyNum t.altitude && decide ((5 : ℚ) < t.altitude.getD 0)

/-- `!telemetry.armed && telemetry.altitude && telemetry.altitude < 2`. -/
def landingTrigger (t : Telemetry) : Bool :=
  !truthyBool t.armed && truthyNum t.altitude && decide (t.altitude.getD 0 < (2 : ℚ))

/-- `telemetry.battery && telemetry.battery < 20`. -/
def batteryLowTrigger (t : Telemetry) : Bool :=
  truthyNum t.battery && decide (t.battery.getD 0 < (20 : ℚ))

/-- `telemetry.mode && telemetry.mode !== 'UNKNOWN'` — the guard does NOT compare
with the previous snapshot's mode. -/
def modeChangeTrigger (t : Telemetry) : Bool :=
  truthyStr t.mode && t.mode.getD "" != "UNKNOWN"

/-- The trigger evaluated by `updateSession` for each kind. -/
def EventKind.trigger : EventKind → Telemetry → Bool
  | .takeoff => takeoffTrigger
  | .landing => landingTrigger
  | .batteryLow => batteryLowTrigger
  | .modeChange => modeChangeTrigger

/-- The per-session `lastByType` record: last emission timestamp per event kind,
with the `lastByType[kind] || 0` default baked in as initial value 0. -/
structure DebounceState where
  takeoffLast : Nat
  landingLast : Nat
  batteryLowLast : Nat
  modeChangeLast : Nat
deriving DecidableEq

/-- Read `lastByType[kind] || 0`. -/
def DebounceState.last (st : DebounceState) : EventKind → Nat
  | .takeoff => st.takeoffLast
  | .landing => st.landingLast
  | .batteryLow => st.batteryLowLast
  | .modeChange => st.modeChangeLast

/-- `this.EVENT_COOLDOWN_MS = 3000`. -/
def EVENT_COOLDOWN_MS : Nat := 3000

/-- The fresh `lastEventTimestamps` entry for a new session. -/
def initialDebounce : DebounceState := ⟨0, 0, 0, 0⟩

/-- One trigger-plus-cooldown block of `updateSession`: the event is pushed (and the
timestamp recorded) exactly when its trigger holds and `now - last >= 3000`. -/
def fireEvent (trigger : Bool) (now last : Nat) : Bool :=
  trigger && decide (EVENT_COOLDOWN_MS ≤ now - last)

/-- `SessionService.updateSession` for one session: the four trigger blocks run in
order (takeoff, landing, battery_low, mode_change); each reads and writes only its
own kind's `lastByType` entry, pushes its event tagged with the current time, and the
pushed events are then written through `logEvent`. Returns the updated timestamps and
the list of events persisted for this update. -/
def updateSession (now : Nat) (t : Telemetry) (st : DebounceState) :
    DebounceState × List (EventKind × Nat) :=
  let fT := fireEvent (takeoffTrigger t) now st.takeoffLast
  let fL := fireEvent (landingTrigger t) now st.landingLast
  let fB := fireEvent (batteryLowTrigger t) now st.batteryLowLast
  let fM := fireEvent (modeChangeTrigger t) now st.modeChangeLast
  ({ takeoffLast := if fT then now else st.takeoffLast,
     landingLast := if fL then now else st.landingLast,
     batteryLowLast := if fB then now else st.batteryLowLast,
     modeChangeLast := if fM then now else st.modeChangeLast },
   (if fT then [(EventKind.takeoff, now)] else []) ++
     (if fL then [(EventKind.landing, now)] else []) ++
     (if fB then [(EventKind.batteryLow, now)] else []) ++
     (if fM then [(EventKind.modeChange, now)] else []))

/-- Run a chronological list of `(Date.now(), telemetry)` updates through
`updateSession`, collecting every event persisted along the way. -/
def runUpdates (st : DebounceState) : List (Nat × Telemetry) → List (EventKind × Nat)
  | [] => []
  | (now, t) :: rest =>
      (updateSession now t st).2 ++ runUpdates (updateSession now t st).1 rest

/-- Membership in one update's emitted events, characterized by the kind's trigger
and cooldown. -/
theorem mem_updateSession_snd (now : Nat) (t : Telemetry) (st : DebounceState)
    (k : EventKind) (ts : Nat) :
    (k, ts) ∈ (updateSession now t st).2 ↔
      ts = now ∧ fireEvent (k.trigger t) now (st.last k) = true := by
  cases k <;>
    simp only [updateSession, EventKind.trigger, DebounceState.last,
      List.mem_append] <;>
    split_ifs <;>
    simp_all

/-- The updated `lastByType` entry for each kind. -/
theorem updateSession_last_eq (now : Nat) (t : Telemetry) (st : DebounceState)
    (k : EventKind) :
    ((updateSession now t st).1).last k =
      if fireEvent (k.trigger t) now (st.last k) then now else st.last k := by
  cases k <;> rfl

/-- Events emitted by one update carry pairwise distinct kinds. -/
theorem updateSession_snd_kinds (now : Nat) (t : Telemetry) (st : DebounceState) :
    ((updateSession now t st).2).Pairwise (fun a b => a.1 ≠ b.1) := by
  simp only [updateSession]
  split_ifs <;> simp_all

/-- Core debounce invariant: over any chronological update trace, every emitted
event of kind `k` lies at least one cooldown after the state's `last k`, and any two
same-kind events are at least one cooldown apart. -/
theorem runUpdates_sep (updates : List (Nat × Telemetry)) :
    ∀ st : DebounceState,
      (updates.map Prod.fst).Pairwise (· ≤ ·) →
      (∀ k : EventKind, ∀ u ∈ updates, st.last k ≤ u.1) →
      (∀ k ts, (k, ts) ∈ runUpdates st updates →
        st.last k + EVENT_COOLDOWN_MS ≤ ts) ∧
      (runUpdates st updates).Pairwise
        (fun a b => a.1 = b.1 → a.2 + EVENT_COOLDOWN_MS ≤ b.2) := by
  induction updates with
  | nil =>
      intro st _ _
      refine ⟨fun k ts h => absurd h ?_, by simp [runUpdates]⟩
      simp [runUpdates]
  | cons u rest ih =>
      intro st hmono hst
      obtain ⟨now, tel⟩ := u
      rw [List.map_cons] at hmono
      have hmc := List.pairwise_cons.mp hmono
      have hnow : ∀ v ∈ rest, now ≤ v.1 := fun v hv =>
        hmc.1 v.1 (List.mem_map_of_mem Prod.fst hv)
      have hmono' : (rest.map Prod.fst).Pairwise (· ≤ ·) := hmc.2
      have hhead : ∀ k : EventKind, st.last k ≤ now := fun k =>
        hst k (now, tel) (List.mem_cons_self _ _)
      have hA : ∀ k : EventKind,
          st.last k ≤ ((updateSession now tel st).1).last k ∧
          ((updateSession now tel st).1).last k ≤ now := by
        intro k
        rw [updateSession_last_eq]
        split
        · exact ⟨hhead k, le_refl now⟩
        · exact ⟨le_refl _, hhead k⟩
      have hB : ∀ k : EventKind, ∀ v ∈ rest,
          ((updateSession now tel st).1).last k ≤ v.1 := fun k v hv =>
        le_trans (hA k).2 (hnow v hv)
      have hC : ∀ k ts, (k, ts) ∈ (updateSession now tel st).2 →
          ts = now ∧ st.last k + EVENT_COOLDOWN_MS ≤ now ∧
            ((updateSession now tel st).1).last k = now := by
        intro k ts hmem
        rw [mem_updateSession_snd] at hmem
        obtain ⟨hts, hfire⟩ := hmem
        have hcool : EVENT_COOLDOWN_MS ≤ now - st.last k := by
          have := hfire
          simp only [fireEvent, Bool.and_eq_true, decide_eq_true_eq] at this
          exact this.2
        simp only [EVENT_COOLDOWN_MS] at hcool
        refine ⟨hts, by simp only [EVENT_COOLDOWN_MS]; omega, ?_⟩
        rw [updateSession_last_eq, if_pos hfire]
      obtain ⟨ih1, ih2⟩ := ih (updateSession now tel st).1 hmono' hB
      constructor
      · intro k ts hmem
        simp only [runUpdates] at hmem
        rcases List.mem_append.mp hmem with h | h
        · obtain ⟨hts, hle, _⟩ := hC k ts h
          omega
        · have h1 := ih1 k ts h
          have h2 := (hA k).1
          omega
      · simp only [runUpdates]
        rw [List.pairwise_append]
        refine ⟨?_, ih2, ?_⟩
        · exact (updateSession_snd_kinds now tel st).imp
            (fun hne heq => absurd heq hne)
        · intro a ha b hb
          obtain ⟨k1, t1⟩ := a
          obtain ⟨k2, t2⟩ := b
          intro heq
          simp only at heq
          subst heq
          obtain ⟨ht1, _, hlast1⟩ := hC k1 t1 ha
          have h2 := ih1 k1 t2 hb
          simp only
          omega

/-- C6. For every session and every event kind, events persisted by the throttled
`updateSession` are separated by at least the 3-second cooldown: over any
chronological telemetry trace, any two persisted events of the same kind are at
least `EVENT_COOLDOWN_MS` apart, so a trigger firing within 3 seconds of the last
persisted emission of that kind is suppressed and at most one event per kind lands
in any 3-second window. -/
theorem event_debounce_per_session_kind (updates : List (Nat × Telemetry))
    (hmono : (updates.map Prod.fst).Pairwise (· ≤ ·)) :
    (runUpdates initialDebounce updates).Pairwise
      (fun a b => a.1 = b.1 → a.2 + EVENT_COOLDOWN_MS ≤ b.2) :=
  (runUpdates_sep updates initialDebounce hmono
    (fun k u _ => by cases k <;> exact Nat.zero_le _)).2

/-- A telemetry update with the drone armed at altitude `alt`. -/
def flightUpdate (ts : Nat) (alt : ℚ) : Nat × Telemetry :=
  (ts, { latitude := none, longitude := none, altitude := some alt, battery := none,
         speed := none, mode := none, armed := some true })

/-- Spec scenario: ten armed updates over one second at altitudes 6..11 m. -/
def takeoffBurst : List (Nat × Telemetry) :=
  [flightUpdate 100000 6, flightUpdate 100100 7, flightUpdate 100200 8,
   flightUpdate 100300 9, flightUpdate 100400 8, flightUpdate 100500 7,
   flightUpdate 100600 8, flightUpdate 100700 9, flightUpdate 100800 10,
   flightUpdate 100900 11]

/-- Closed witness: the C6 theorem on the takeoff burst; the burst indeed persists
exactly one takeoff event. -/
theorem event_debounce_per_session_kind_witness :
    ((takeoffBurst.map Prod.fst).Pairwise (· ≤ ·)) ∧
    (runUpdates initialDebounce takeoffBurst).Pairwise
      (fun a b => a.1 = b.1 → a.2 + EVENT_COOLDOWN_MS ≤ b.2) ∧
    runUpdates initialDebounce takeoffBurst = [(EventKind.takeoff, 100000)] :=
  ⟨by decide, event_debounce_per_session_kind takeoffBurst (by decide), by decide⟩

/-- A telemetry update carrying only a (known, unchanged) flight mode. -/
def modeOnlyUpdate (ts : Nat) : Nat × Telemetry :=
  (ts, { latitude := none, longitude := none, altitude := none, battery := none,
         speed := none, mode := some "GUIDED", armed := some false })

/-- C7 (code evaluated at the failing input). Two telemetry updates 4 seconds apart,
both reporting the same mode `GUIDED` (so the mode never differs from the prior
snapshot's mode), each produce a persisted `mode_change` event: `updateSession`'s
guard is `mode && mode !== 'UNKNOWN'` plus the 3-second cooldown, with no comparison
against the previous mode, contradicting the derivation rule
`snapshot.mode != prior.mode` and the event's own `Mode changed to …` message. -/
theorem mode_change_fires_without_mode_change :
    runUpdates initialDebounce [modeOnlyUpdate 100000, modeOnlyUpdate 104000] =
      [(EventKind.modeChange, 100000), (EventKind.modeChange, 104000)] := by
  decide

/-- C10. In `updateSession` the numeric-field guards are JS truthiness tests, so a
field that is exactly `0` disables its trigger even though the threshold comparison
holds: an update with `armed = false` and relative altitude exactly `0` persists no
landing event (despite `0 < 2`), and an update with battery exactly `0` persists no
battery_low event (despite `0 < 20`). -/
theorem zero_valued_fields_suppress_events (st : DebounceState) (now : Nat)
    (t : Telemetry) :
    (t.armed = some false → t.altitude = some 0 →
      ∀ ts, (EventKind.landing, ts) ∉ (updateSession now t st).2) ∧
    (t.battery = some 0 →
      ∀ ts, (EventKind.batteryLow, ts) ∉ (updateSession now t st).2) := by
  constructor
  · intro _ halt ts hmem
    rw [mem_updateSession_snd] at hmem
    have := hmem.2
    simp [fireEvent, EventKind.trigger, landingTrigger, truthyNum, halt] at this
  · intro hbat ts hmem
    rw [mem_updateSession_snd] at hmem
    have := hmem.2
    simp [fireEvent, EventKind.trigger, batteryLowTrigger, truthyNum, hbat] at this

/-- Closed witness: C10 at a disarmed update sitting on the ground with a dead
battery reading. -/
theorem zero_valued_fields_suppress_events_witness :
    (EventKind.landing, 100000) ∉
      (updateSession 100000
        { latitude := none, longitude := none, altitude := some 0,
          battery := some 0, speed := none, mode := none, armed := some false }
        initialDebounce).2 ∧
    (EventKind.batteryLow, 100000) ∉
      (updateSession 100000
        { latitude := none, longitude := none, altitude := some 0,
          battery := some 0, speed := none, mode := none, armed := some false }
        initialDebounce).2 :=
  ⟨(zero_valued_fields_suppress_events initialDebounce 100000 _).1 rfl rfl 100000,
    (zero_valued_fields_suppress_events initialDebounce 100000 _).2 rfl 100000⟩

/-! ## Drone registration (DroneManager.registerDrone and the /user/drone/register
route) -/

/-- The only `DroneManager` state `registerDrone` touches: the monotonically
increasing `nextDroneId` counter. The manager keeps no uin index of any kind. -/
structure DroneManagerState where
  nextDroneId : Nat
deriving DecidableEq

/-- `DroneManager.registerDrone` (in-memory variant): allocate `nextDroneId++` and
return it; the `uin` (and every other argument) is only logged — nothing is recorded
and no conflict check happens. -/
def registerDrone (st : DroneManagerState) (userId : Nat)
    (name uin connectionString ipAddress : String) (port : Nat) :
    Nat × DroneManagerState :=
  (st.nextDroneId, { st with nextDroneId := st.nextDroneId + 1 })

/-- A `Drone` row as the register route creates it. -/
structure DroneRow where
  id : Nat
  userId : Nat
  name : String
  uin : String
deriving DecidableEq

/-- The storage collaborator state seen by the register route: the `Drone` table and
its autoincrement counter. -/
structure Db where
  drones : List DroneRow
  nextId : Nat
deriving DecidableEq

/-- `prisma.drone.findUnique({ where: { uin } })`. -/
def findByUin (db : Db) (uin : String) : Option DroneRow :=
  db.drones.find? (fun d => d.uin == uin)

/-- Outcome of the `/user/drone/register` handler's uniqueness gate: the
`Drone with this UIN already exists` rejection, or a created row's id. -/
inductive RegisterRouteResult where
  | conflict
  | registered (droneId : Nat)
deriving DecidableEq

/-- The registration core of the `/user/drone/register` handler (user.ts): reject
when `findUnique` resolves the uin, otherwise create the row. -/
def userRegisterRoute (db : Db) (userId : Nat) (name uin : String) :
    RegisterRouteResult × Db :=
  match findByUin db uin with
  | some _ => (RegisterRouteResult.conflict, db)
  | none =>
      (RegisterRouteResult.registered db.nextId,
       { drones := db.drones ++ [⟨db.nextId, userId, name, uin⟩],
         nextId := db.nextId + 1 })

/-- C8 counterexample. Two `registerDrone` calls with the same uin `UIN-1` both
succeed: the first returns drone id 1, the second returns the fresh drone id 2
instead of failing with a uin conflict, and the resulting manager state is just the
bumped counter — no by_uin entry exists to be recorded. -/
theorem register_duplicate_uin_accepted :
    (registerDrone ⟨1⟩ 7 "Alpha" "UIN-1" "udp:127.0.0.1:14550" "127.0.0.1"
        14550).1 = 1 ∧
    (registerDrone
        (registerDrone ⟨1⟩ 7 "Alpha" "UIN-1" "udp:127.0.0.1:14550" "127.0.0.1"
          14550).2
        8 "Beta" "UIN-1" "udp:127.0.0.1:14551" "127.0.0.1" 14551).1 = 2 ∧
    (registerDrone
        (registerDrone ⟨1⟩ 7 "Alpha" "UIN-1" "udp:127.0.0.1:14550" "127.0.0.1"
          14550).2
        8 "Beta" "UIN-1" "udp:127.0.0.1:14551" "127.0.0.1" 14551).2 = ⟨3⟩ := by
  decide

/-- Helper: `find?` over an append searches the left list first. -/
theorem find?_append_of_left_none {α : Type} (p : α → Bool) (l₁ l₂ : List α)
    (h : l₁.find? p = none) : (l₁ ++ l₂).find? p = l₂.find? p := by
  induction l₁ with
  | nil => simp
  | cons a l ih =>
      rw [List.find?_cons] at h
      rcases hp : p a with _ | _
      · rw [hp] at h
        simp only [List.cons_append, List.find?_cons, hp]
        exact ih h
      · rw [hp] at h
        exact absurd h (by simp)

/-- C8 (amended). The in-memory `registerDrone` maintains no by_uin index and never
fails with a uin conflict: every call — including one reusing an already-registered
uin — returns the current `nextDroneId` as a fresh drone id and merely increments
the counter. Uin uniqueness is enforced only on the database-backed
`/user/drone/register` route: after a successful route registration the uin is
findable and a second route registration with the same uin is rejected. -/
theorem register_no_manager_uin_conflict (st : DroneManagerState)
    (u1 u2 p1 p2 : Nat) (n1 n2 uin cs1 cs2 ip1 ip2 : String)
    (db : Db) (ru : Nat) (rn rui : String)
    (hdb : findByUin db rui = none) :
    (registerDrone st u1 n1 uin cs1 ip1 p1).1 = st.nextDroneId ∧
    (registerDrone (registerDrone st u1 n1 uin cs1 ip1 p1).2 u2 n2 uin cs2 ip2
        p2).1 = st.nextDroneId + 1 ∧
    findByUin (userRegisterRoute db ru rn rui).2 rui = some ⟨db.nextId, ru, rn, rui⟩ ∧
    (userRegisterRoute (userRegisterRoute db ru rn rui).2 ru rn rui).1 =
      RegisterRouteResult.conflict := by
  have hfind : findByUin (userRegisterRoute db ru rn rui).2 rui =
      some ⟨db.nextId, ru, rn, rui⟩ := by
    unfold userRegisterRoute
    rw [hdb]
    unfold findByUin at hdb ⊢
    simp only
    rw [find?_append_of_left_none _ _ _ hdb]
    simp
  refine ⟨rfl, rfl, hfind, ?_⟩
  have hconf : ∀ (db' : Db) (r : DroneRow), findByUin db' rui = some r →
      (userRegisterRoute db' ru rn rui).1 = RegisterRouteResult.conflict := by
    intro db' r h
    unfold userRegisterRoute
    rw [h]
  exact hconf _ _ hfind

/-- Closed witness: the amended C8 theorem at concrete arguments over an empty
database. -/
theorem register_no_manager_uin_conflict_witness :
    findByUin ⟨[], 1⟩ "UIN-1" = none ∧
    (registerDrone ⟨1⟩ 7 "Alpha" "UIN-1" "udp:127.0.0.1:14550" "127.0.0.1"
        14550).1 = 1 ∧
    (userRegisterRoute (userRegisterRoute ⟨[], 1⟩ 7 "Alpha" "UIN-1").2 7 "Alpha"
        "UIN-1").1 = RegisterRouteResult.conflict :=
  ⟨by decide,
    (register_no_manager_uin_conflict ⟨1⟩ 7 8 14550 14551 "Alpha" "Beta" "UIN-1"
      "udp:127.0.0.1:14550" "udp:127.0.0.1:14551" "127.0.0.1" "127.0.0.1"
      ⟨[], 1⟩ 7 "Alpha" "UIN-1" (by decide)).1,
    (register_no_manager_uin_conflict ⟨1⟩ 7 8 14550 14551 "Alpha" "Beta" "UIN-1"
      "udp:127.0.0.1:14550" "udp:127.0.0.1:14551" "127.0.0.1" "127.0.0.1"
      ⟨[], 1⟩ 7 "Alpha" "UIN-1" (by decide)).2.2.2⟩

end DronOS
